import Mathlib

set_option maxRecDepth 8000

/-!
Verification of the dalli-templates service-connector framework
(`backend/app/connectors/`): the factory/registry (`factory.py`), the
base connector contract (`base.py`), and the internal chunking
algorithm (`providers/chunking/internal.py`), shallowly embedded in
Lean.  Python dictionaries are modelled as insertion-ordered
association lists with distinct keys, Python exceptions as an explicit
error type threaded through `Except`.
-/

namespace Dalli

/-- Model of a Python value as it occurs in connector configurations:
strings, integers, booleans, None, and (insertion-ordered)
dictionaries with string keys. -/
inductive Val where
  | str (s : String)
  | int (n : Int)
  | bool (b : Bool)
  | none
  | dict (entries : List (String × Val))
deriving Repr

/-- Python dict lookup `d[k]` / `d.get(k)` on the association-list
model: first entry with the key (keys are unique in a dict). -/
def dget (d : List (String × Val)) (k : String) : Option Val :=
  match d with
  | [] => Option.none
  | (k', v) :: rest => if k' = k then some v else dget rest k

/-- Python dict assignment `d[k] = v`: updates the existing entry in
place (keeping its position) or appends a new entry at the end. -/
def dset (d : List (String × Val)) (k : String) (v : Val) : List (String × Val) :=
  match d with
  | [] => [(k, v)]
  | (k', v') :: rest => if k' = k then (k, v) :: rest else (k', v') :: dset rest k v

/-- Python truthiness (`if config:` etc.) for the modelled values. -/
def truthy : Val → Bool
  | .str s => s != ""
  | .int n => n != 0
  | .bool b => b
  | .none => false
  | .dict d => !d.isEmpty

/-- A single-quote character, used by the Python `repr` of strings. -/
def sq : String := String.singleton (Char.ofNat 39)

/-- ASCII lowercase of one character; the configuration keys and
provider names in play are ASCII, so this models Python `str.lower`. -/
def lowerChar (c : Char) : Char :=
  if 65 ≤ c.toNat ∧ c.toNat ≤ 90 then Char.ofNat (c.toNat + 32) else c

/-- Python `s.lower()` (ASCII range). -/
def pyLower (s : String) : String := ⟨s.data.map lowerChar⟩

/-- Python `str.strip()`: the string without leading and trailing
whitespace. -/
def pyStrip (s : String) : String :=
  ⟨((s.data.dropWhile Char.isWhitespace).reverse.dropWhile Char.isWhitespace).reverse⟩

/-- Byte-wise string comparison `a <= b` (lexicographic on the
character codes), as Python compares the dict keys while sorting. -/
def strLeB (a b : String) : Bool :=
  strLeAux a.data b.data
where
  strLeAux : List Char → List Char → Bool
    | [], _ => true
    | _ :: _, [] => false
    | c :: cs, d :: ds =>
      if c.toNat < d.toNat then true
      else if d.toNat < c.toNat then false
      else strLeAux cs ds

mutual

/-- Python `repr` of a value, as used by `str(...)` on containers.
String escaping is not modelled (the configuration keys and values in
play contain no quotes or backslashes). -/
def pyRepr : Val → String
  | .str s => sq ++ s ++ sq
  | .int n => toString n
  | .bool b => if b then "True" else "False"
  | .none => "None"
  | .dict d => "\x7b" ++ pyReprEntries d ++ "\x7d"

/-- Python `repr` of a dict body, entries in insertion order. -/
def pyReprEntries : List (String × Val) → String
  | [] => ""
  | [(k, v)] => sq ++ k ++ sq ++ ": " ++ pyRepr v
  | (k, v) :: rest => sq ++ k ++ sq ++ ": " ++ pyRepr v ++ ", " ++ pyReprEntries rest

end

/-- Python `repr` of a list of `(key, value)` tuples, as produced by
`str(sorted(config.items()))`. -/
def pyReprItems : List (String × Val) → String
  | [] => ""
  | [(k, v)] => "(" ++ sq ++ k ++ sq ++ ", " ++ pyRepr v ++ ")"
  | (k, v) :: rest =>
      "(" ++ sq ++ k ++ sq ++ ", " ++ pyRepr v ++ ")" ++ ", " ++ pyReprItems rest

/-- `str(list_of_items)`. -/
def pyReprItemList (l : List (String × Val)) : String :=
  "[" ++ pyReprItems l ++ "]"

/-- Insert one `(key, value)` pair into a key-sorted list of pairs.
Python `sorted` compares the tuples lexicographically, but since dict
keys are unique the comparison is decided by the keys alone. -/
def insertPair (p : String × Val) : List (String × Val) → List (String × Val)
  | [] => [p]
  | q :: qs => if strLeB p.1 q.1 then p :: q :: qs else q :: insertPair p qs

/-- Python `sorted(config.items())`: the items sorted by key
(ascending); insertion sort model. -/
def sortPairs (l : List (String × Val)) : List (String × Val) :=
  l.foldr insertPair []

/-- Python `hash` on strings: a bounded deterministic mixing of the
characters.  CPython's value is seed-dependent across processes but
fixed within one process, which is all the factory relies on; it is
modelled by a fixed mixing function. -/
def pyHash (s : String) : Nat :=
  s.data.foldl (fun a c => (a * 1000003 + c.toNat) % (2 ^ 61 - 1)) 5381

/-- `factory.py` line 63: `config_hash = hash(str(sorted(config.items())))
if config else 0`. -/
def config_hash (config : Option (List (String × Val))) : Nat :=
  match config with
  | some c => if c.isEmpty then 0 else pyHash (pyReprItemList (sortPairs c))
  | Option.none => 0

/-- `factory.py` line 64: `cache_key = f"{service_type}_{config_hash}"`. -/
def cache_key (service_type : String) (config : Option (List (String × Val))) : String :=
  service_type ++ "_" ++ toString (config_hash config)

/-- The Python exceptions in play: the five-kind connector taxonomy of
`errors.py` plus the builtin and `requests` exceptions raised or caught
by the embedded code. -/
inductive PyErr where
  | valueError (msg : String)
  | typeError (msg : String)
  | attributeError (msg : String)
  | providerNotFoundError (msg : String)
  | configurationError (msg : String)
  | connectionError (msg : String)
  | healthCheckError (msg : String)
  | processingError (msg : String)
  | requestsTimeout (msg : String)
  | requestsConnectionError (msg : String)
  | requestsHTTPError (msg : String)
  | otherException (msg : String)
deriving Repr, DecidableEq

/-- Python `str(e)` on an exception: its message. -/
def PyErr.msg : PyErr → String
  | .valueError m | .typeError m | .attributeError m
  | .providerNotFoundError m | .configurationError m | .connectionError m
  | .healthCheckError m | .processingError m
  | .requestsTimeout m | .requestsConnectionError m | .requestsHTTPError m
  | .otherException m => m

/-! ## Internal chunking algorithm (`providers/chunking/internal.py`) -/

/-- `InternalChunker._tokenize`: strip the text, split on runs of
whitespace (`re.split` with a whitespace-class pattern), drop empty
tokens. -/
def tokenize (text : String) : List String :=
  splitWsAux (pyStrip text).data []
where
  /-- Split a character list on runs of whitespace, dropping empty
  tokens; `acc` is the current token, reversed. -/
  splitWsAux : List Char → List Char → List String
    | [], [] => []
    | [], acc => [⟨acc.reverse⟩]
    | c :: rest, acc =>
      if c.isWhitespace then
        match acc with
        | [] => splitWsAux rest []
        | _ => ⟨acc.reverse⟩ :: splitWsAux rest []
      else splitWsAux rest (c :: acc)

/-- The chunking loop of `InternalChunker.chunk_text` (lines 61-75):
`for i in range(0, len(tokens), stride)`, each step takes the window
`tokens[i:i+chunk_size]`, appends it if nonempty, and breaks once
`i + chunk_size >= len(tokens)`.  The `0 < stride` guard mirrors
`range`'s requirement of a nonzero step (the caller always passes
`stride = chunk_size - chunk_overlap >= 1`). -/
def chunkLoop (chunk_size stride : Nat) (tokens : List String) (i : Nat) :
    List (List String) :=
  if h : 0 < stride ∧ i < tokens.length then
    let w := (tokens.drop i).take chunk_size
    let emitted := if w.isEmpty then [] else [w]
    if i + chunk_size ≥ tokens.length then emitted
    else emitted ++ chunkLoop chunk_size stride tokens (i + stride)
  else []
termination_by tokens.length - i
decreasing_by omega

/-- `InternalChunker.chunk_text` with the chunk parameters already
resolved from config/kwargs (both are Python ints at this point).
Follows lines 41-75 of `internal.py`: empty/whitespace-only text short
circuits to `[]` before any validation; then parameter validation;
then the short-input passthrough; then the sliding window, each window
rejoined with single spaces. -/
def chunk_text (chunk_size chunk_overlap : Int) (text : String) :
    Except PyErr (List String) :=
  if text = "" ∨ (pyStrip text).length = 0 then .ok []
  else if chunk_size ≤ 0 then .error (.valueError "chunk_size must be positive")
  else if chunk_overlap < 0 ∨ chunk_overlap ≥ chunk_size then
    .error (.valueError "chunk_overlap must be >= 0 and < chunk_size")
  else
    let tokens := tokenize text
    if (tokens.length : Int) ≤ chunk_size then
      .ok [" ".intercalate tokens]
    else
      .ok ((chunkLoop chunk_size.toNat (chunk_size - chunk_overlap).toNat tokens 0).map
        (fun w => " ".intercalate w))

/-! ## Resilient call primitive (`base.py` lines 97-165) -/

/-- Outcome of one raw HTTP attempt (`requests.get`/`requests.post`
followed by `raise_for_status()` and `.json()`), as seen inside the
`try:` block of `_call_api`. -/
inductive ReqOutcome where
  | ok (body : Val)
  | timeout (msg : String)
  | connectionRefused (msg : String)
  | httpErrorStatus (msg : String)
  | otherFailure (msg : String)
deriving Repr

/-- The body of `_call_api` (the `try`/`except` of lines 132-165): the
raw request outcome is classified — `requests.exceptions.Timeout` and
`requests.exceptions.ConnectionError` are re-raised as the taxonomy's
`ConnectionError`, `HTTPError` as `ProcessingError`, anything else
(e.g. a malformed JSON body) as `ProcessingError`. -/
def call_api_body (outcome : ReqOutcome) : Except PyErr Val :=
  match outcome with
  | .ok body => .ok body
  | .timeout m => .error (.connectionError ("Request timeout: " ++ m))
  | .connectionRefused m => .error (.connectionError ("Connection failed: " ++ m))
  | .httpErrorStatus m => .error (.processingError ("HTTP error: " ++ m))
  | .otherFailure m => .error (.processingError ("API call failed: " ++ m))

/-- `tenacity.retry_if_exception_type((requests.exceptions.Timeout,
requests.exceptions.ConnectionError))`: the retry predicate of the
decorator on `_call_api`, an `isinstance` check against the two
`requests` exception classes. -/
def tenacity_should_retry (e : PyErr) : Bool :=
  match e with
  | .requestsTimeout _ => true
  | .requestsConnectionError _ => true
  | _ => false

/-- Semantics of the `tenacity` `@retry` decorator with
`stop_after_attempt` and `reraise=True`: run the wrapped function; on
an exception matching the retry predicate, retry until the attempt
ceiling, otherwise re-raise at once.  Returns the number of attempts
made together with the final outcome. -/
def tenacityRetry (maxAttempts : Nat) (shouldRetry : PyErr → Bool)
    (body : Nat → Except PyErr Val) (attempt : Nat) : Nat × Except PyErr Val :=
  match body attempt with
  | .ok v => (attempt, .ok v)
  | .error e =>
    if shouldRetry e ∧ attempt < maxAttempts then
      tenacityRetry maxAttempts shouldRetry body (attempt + 1)
    else (attempt, .error e)
termination_by maxAttempts + 1 - attempt
decreasing_by omega

/-- `_call_api` as decorated: `@retry(stop=stop_after_attempt(3), ...,
retry=retry_if_exception_type((Timeout, ConnectionError)),
reraise=True)` around `call_api_body`.  `behavior n` is the raw
outcome of the `n`-th attempt against the endpoint.  Returns the
number of attempts actually made and the surfaced result. -/
def call_api (behavior : Nat → ReqOutcome) : Nat × Except PyErr Val :=
  tenacityRetry 3 tenacity_should_retry (fun n => call_api_body (behavior n)) 1

/-! ## Providers and the base connector contract (`base.py`, the
`*_connector.py` classes and the provider `__init__`s) -/

/-- Python `v.get(key, dflt)`: dictionary lookup with default;
`AttributeError` when the receiver is not a dict. -/
def cfgGet (v : Val) (key : String) (dflt : Val) : Except PyErr Val :=
  match v with
  | .dict d => .ok ((dget d key).getD dflt)
  | _ => .error (.attributeError "object has no attribute get")

/-- The concrete provider objects constructible in this repository,
with the fields their `__init__`s store. -/
inductive Provider where
  | localTesseract (url lang timeout : Val)
  | internalChunker (chunk_size chunk_overlap delimiter : Val)
  | openaiEmbedding (api_key model_name base_url timeout batch_size : Val)
  | huggingfaceEmbedding (base_url model_name batch_size timeout api_key : Val)
  | ollamaEmbedding (base_url model_name batch_size timeout keep_alive : Val)
deriving Repr

/-- `LocalTesseractProvider.__init__` (`providers/ocr/local_tesseract.py`). -/
def local_tesseract_init (config : Val) : Except PyErr Provider := do
  let url ← cfgGet config "url" (.str "http://localhost:8080")
  let lang ← cfgGet config "lang" (.str "eng+kor")
  let timeout ← cfgGet config "timeout" (.int 30)
  .ok (.localTesseract url lang timeout)

/-- `InternalChunker.__init__` (`providers/chunking/internal.py`). -/
def internal_chunker_init (config : Val) : Except PyErr Provider := do
  let chunk_size ← cfgGet config "chunk_size" (.int 512)
  let chunk_overlap ← cfgGet config "chunk_overlap" (.int 50)
  let delimiter ← cfgGet config "delimiter" (.str "[\\n!?。；！？\\.\\s]+")
  .ok (.internalChunker chunk_size chunk_overlap delimiter)

/-- `OpenAIEmbedding.__init__` (`providers/embedding/openai_embed.py`):
requires a truthy `api_key`; the OpenAI client object itself is
constructed without side effects and is not modelled further. -/
def openai_embedding_init (config : Val) : Except PyErr Provider := do
  let api_key ← cfgGet config "api_key" .none
  if ¬ truthy api_key then
    .error (.valueError "api_key is required for OpenAI embedding")
  else do
    let model_name ← cfgGet config "model_name" (.str "text-embedding-3-small")
    let base_url ← cfgGet config "base_url" (.str "https://api.openai.com/v1")
    let timeout ← cfgGet config "timeout" (.int 60)
    let batch_size ← cfgGet config "batch_size" (.int 16)
    .ok (.openaiEmbedding api_key model_name base_url timeout batch_size)

/-- `HuggingFaceEmbedding.__init__` (`providers/embedding/huggingface_embed.py`). -/
def huggingface_embedding_init (config : Val) : Except PyErr Provider := do
  let base_url ← cfgGet config "base_url" (.str "http://localhost:8080")
  let model_name ← cfgGet config "model_name" (.str "BAAI/bge-large-en-v1.5")
  let batch_size ← cfgGet config "batch_size" (.int 16)
  let timeout ← cfgGet config "timeout" (.int 60)
  let api_key ← cfgGet config "api_key" .none
  .ok (.huggingfaceEmbedding base_url model_name batch_size timeout api_key)

/-- `OllamaEmbedding.__init__` (`providers/embedding/ollama_embed.py`). -/
def ollama_embedding_init (config : Val) : Except PyErr Provider := do
  let base_url ← cfgGet config "base_url" (.str "http://localhost:11434")
  let model_name ← cfgGet config "model_name" (.str "nomic-embed-text")
  let batch_size ← cfgGet config "batch_size" (.int 16)
  let timeout ← cfgGet config "timeout" (.int 60)
  let keep_alive ← cfgGet config "keep_alive" (.int (-1))
  .ok (.ollamaEmbedding base_url model_name batch_size timeout keep_alive)

/-- The three connector classes keyed by the factory's `connector_map`. -/
inductive ServiceKind where
  | ocr
  | chunking
  | embedding
deriving Repr, DecidableEq

/-- A `... not yet implemented. Please use ... provider or check back
later.` message of the placeholder provider branches. -/
def notImplMsg (what fallback : String) : String :=
  what ++ " provider not yet implemented. Please use " ++ sq ++ fallback ++ sq ++
    " provider or check back later."

/-- `_init_provider` of `OCRConnector` / `ChunkingConnector` /
`EmbeddingConnector`: dispatch on `self.provider_type.lower()` through
the string-keyed provider map; unknown keys and the Phase-2
placeholders raise `ProviderNotFoundError`.  `pt` is the already
lowercased provider type, `config` the connector's full config. -/
def init_provider (kind : ServiceKind) (pt : String) (config : Val) :
    Except PyErr Provider :=
  match kind with
  | .ocr =>
    if pt = "tesseract" then do
      let sec ← cfgGet config "tesseract" (.dict [])
      local_tesseract_init sec
    else if pt = "google" then .error (.providerNotFoundError (notImplMsg "Google Vision" "tesseract"))
    else if pt = "azure" then .error (.providerNotFoundError (notImplMsg "Azure Computer Vision" "tesseract"))
    else if pt = "aws" then .error (.providerNotFoundError (notImplMsg "AWS Textract" "tesseract"))
    else .error (.providerNotFoundError
      ("Unknown OCR provider: " ++ pt ++ ". Available: tesseract, google, azure, aws"))
  | .chunking =>
    if pt = "internal" then do
      let sec ← cfgGet config "internal" (.dict [])
      internal_chunker_init sec
    else if pt = "langchain" then .error (.providerNotFoundError (notImplMsg "LangChain" "internal"))
    else if pt = "llamaindex" then .error (.providerNotFoundError (notImplMsg "LlamaIndex" "internal"))
    else if pt = "semantic" then .error (.providerNotFoundError (notImplMsg "Semantic chunking" "internal"))
    else .error (.providerNotFoundError
      ("Unknown chunking provider: " ++ pt ++ ". Available: internal, langchain, llamaindex, semantic"))
  | .embedding =>
    if pt = "openai" then do
      let sec ← cfgGet config "openai" (.dict [])
      openai_embedding_init sec
    else if pt = "huggingface" then do
      let sec ← cfgGet config "huggingface" (.dict [])
      huggingface_embedding_init sec
    else if pt = "ollama" then do
      let sec ← cfgGet config "ollama" (.dict [])
      ollama_embedding_init sec
    else if pt = "azure" then .error (.providerNotFoundError
      ("Azure embedding provider not yet implemented. Please use " ++ sq ++ "huggingface" ++ sq ++
        " provider or check back later."))
    else if pt = "cohere" then .error (.providerNotFoundError (notImplMsg "Cohere" "huggingface"))
    else .error (.providerNotFoundError
      ("Unknown embedding provider: " ++ pt ++ ". Available: openai, huggingface, ollama, azure, cohere"))

/-- The state a successfully constructed connector holds
(`BaseConnector.__init__`, lines 51-58 of `base.py`). -/
structure ConnectorData where
  kind : ServiceKind
  config : Val
  provider_type : String
  timeout : Val
  max_retries : Val
  provider : Provider
deriving Repr

/-- `BaseConnector.__init__`: store the config, extract
`provider` (default `"default"`), `timeout` (default 30) and
`max_retries` (default 3), then run the subclass's `_init_provider`.
The `provider_type.lower()` call inside `_init_provider` raises
`AttributeError` when the `provider` value is not a string. -/
def base_connector_init (kind : ServiceKind) (config : Val) :
    Except PyErr ConnectorData := do
  let ptVal ← cfgGet config "provider" (.str "default")
  let timeout ← cfgGet config "timeout" (.int 30)
  let max_retries ← cfgGet config "max_retries" (.int 3)
  match ptVal with
  | .str pt => do
    let provider ← init_provider kind (pyLower pt) config
    .ok ⟨kind, config, pt, timeout, max_retries, provider⟩
  | _ => .error (.attributeError "object has no attribute lower")

/-- The keys `get_provider_info` filters out (`base.py` line 206). -/
def sensitive_keys : List String :=
  ["api_key", "secret_key", "password", "token", "access_token"]

/-- `BaseConnector.get_provider_info` (`base.py` lines 188-210):
`{type, config, timeout, max_retries}` where `config` is
`self.config.get(self.provider_type, {})` with the sensitive keys
filtered from its top level (a dict comprehension over `.items()`;
an `AttributeError` surfaces when that value is not a dict). -/
def get_provider_info (c : ConnectorData) : Except PyErr Val := do
  let sec ← cfgGet c.config c.provider_type (.dict [])
  match sec with
  | .dict d =>
    .ok (.dict
      [("type", .str c.provider_type),
       ("config", .dict (d.filter (fun kv => !(sensitive_keys.contains kv.1)))),
       ("timeout", c.timeout),
       ("max_retries", c.max_retries)])
  | _ => .error (.attributeError "object has no attribute items")

/-- `BaseConnector.health_check` (`base.py` lines 167-186): if the
provider has a `health_check` attribute, call it inside `try`/`except
Exception` — a raised exception becomes `False`; a provider without
the attribute yields `True`.  `probe` is `none` when the provider has
no `health_check`, otherwise the outcome of calling it (`.error e`
models the probe raising `e`). -/
def health_check (probe : Option (Except PyErr Bool)) : Except PyErr Bool :=
  match probe with
  | Option.none => .ok true
  | some (.ok b) => .ok b
  | some (.error _) => .ok false

/-! ## Factory / registry (`factory.py`) -/

/-- The factory's `connector_map` (lines 105-109), keyed by
`service_type.lower()`. -/
def connector_map (svc_lower : String) : Option ServiceKind :=
  if svc_lower = "ocr" then some .ocr
  else if svc_lower = "chunking" then some .chunking
  else if svc_lower = "embedding" then some .embedding
  else Option.none

/-- `ServiceConnectorFactory._get_default_config` (lines 179-229): the
hard-coded per-service defaults, `{}` for an unknown service type. -/
def get_default_config (service_type : String) : Val :=
  if pyLower service_type = "ocr" then
    .dict [("provider", .str "tesseract"),
           ("tesseract", .dict [("url", .str "http://localhost:8081"),
                                ("lang", .str "eng+kor"),
                                ("timeout", .int 30)]),
           ("timeout", .int 30),
           ("max_retries", .int 3)]
  else if pyLower service_type = "chunking" then
    .dict [("provider", .str "internal"),
           ("internal", .dict [("chunk_size", .int 512),
                               ("chunk_overlap", .int 50),
                               ("delimiter", .str "\n!?。；！？")]),
           ("timeout", .int 30),
           ("max_retries", .int 3)]
  else if pyLower service_type = "embedding" then
    .dict [("provider", .str "huggingface"),
           ("huggingface", .dict [("model_name", .str "BAAI/bge-large-en-v1.5"),
                                  ("base_url", .str "http://localhost:8080"),
                                  ("device", .str "cpu")]),
           ("timeout", .int 60),
           ("max_retries", .int 3)]
  else .dict []

/-- State of `service_conf.yaml` as `_load_config` sees it: missing;
unreadable or failing to parse (both land in the same `except`
branch); or successfully parsed — `doc` is the YAML document after
environment-variable substitution, `.none` when the file parses to
an empty/null document. -/
inductive FileState where
  | absent
  | unreadable
  | parsed (doc : Val)
deriving Repr

/-- What `cls._config_cache = yaml.safe_load(...)` leaves in the
class-level cache: a null document leaves the cache `None`. -/
def yaml_cache (doc : Val) : Option Val :=
  match doc with
  | .none => Option.none
  | d => some d

/-- `cls._config_cache.get(f"{service_type.lower()}_service", {})`
(line 177): the per-service section, `{}` when the key is absent,
`AttributeError` when the cached document is not a dict (e.g. `None`
from an empty file). -/
def doc_get_service (doc : Val) (service_type : String) : Except PyErr Val :=
  match doc with
  | .dict d => .ok ((dget d (pyLower service_type ++ "_service")).getD (.dict []))
  | _ => .error (.attributeError "object has no attribute get")

/-- `ServiceConnectorFactory._load_config` (lines 137-177), with the
class-level `_config_cache` threaded explicitly.  A missing or
unreadable/unparsable file returns the hard-coded default without
touching the cache; a parsed document is cached and its
`<service_type>_service` section returned. -/
def load_config (cache : Option Val) (fs : FileState) (service_type : String) :
    Option Val × Except PyErr Val :=
  match cache with
  | some doc => (some doc, doc_get_service doc service_type)
  | Option.none =>
    match fs with
    | .absent => (Option.none, .ok (get_default_config service_type))
    | .unreadable => (Option.none, .ok (get_default_config service_type))
    | .parsed doc => (yaml_cache doc, doc_get_service doc service_type)

/-- `ServiceConnectorFactory._create_connector` (lines 77-135):
resolve the connector class from `connector_map` (unknown service
types raise `ProviderNotFoundError`); resolve `final_config = config
or cls._load_config(service_type)`; reject a falsy final config with
`ConfigurationError`; construct the connector, wrapping any
construction exception in `ConfigurationError`. -/
def create_connector (cache : Option Val) (fs : FileState)
    (service_type : String) (config : Option (List (String × Val))) :
    Option Val × Except PyErr ConnectorData :=
  match connector_map (pyLower service_type) with
  | Option.none =>
    (cache, .error (.providerNotFoundError
      ("Unknown service type: " ++ service_type ++ ". Available: ocr, chunking, embedding")))
  | some kind =>
    let resolved : Option Val × Except PyErr Val :=
      match config with
      | some c => if c.isEmpty then load_config cache fs service_type else (cache, .ok (.dict c))
      | Option.none => load_config cache fs service_type
    match resolved with
    | (cache', .error e) => (cache', .error e)
    | (cache', .ok final_config) =>
      if ¬ truthy final_config then
        (cache', .error (.configurationError
          ("No configuration found for service type: " ++ service_type)))
      else
        match base_connector_init kind final_config with
        | .ok c => (cache', .ok c)
        | .error e =>
          (cache', .error (.configurationError
            ("Failed to initialize " ++ service_type ++ " connector: " ++ e.msg)))

/-- Association-list lookup for the instance registry. -/
def reg_get {α : Type} (l : List (String × α)) (k : String) : Option α :=
  match l with
  | [] => Option.none
  | (k', v) :: rest => if k' = k then some v else reg_get rest k

/-- The factory's class-level mutable state: the instance registry
`_instances` (insertion-ordered), the parsed-file cache
`_config_cache`, and a counter modelling Python object identity — the
`n`-th connector ever constructed is object `n`. -/
structure FactoryState where
  instances : List (String × (Nat × ConnectorData))
  configCache : Option Val
  nextId : Nat

/-- The factory's state at process start. -/
def emptyState : FactoryState := ⟨[], Option.none, 0⟩

/-- `ServiceConnectorFactory.get_connector` (lines 44-75): compute the
cache key; return the cached instance when present; otherwise build
via `_create_connector` and store the fresh instance under the key —
on a construction error nothing is stored.  (The double-checked lock
collapses in this sequential model.)  Returns the instance together
with its object identity. -/
def get_connector (st : FactoryState) (fs : FileState)
    (service_type : String) (config : Option (List (String × Val))) :
    FactoryState × Except PyErr (Nat × ConnectorData) :=
  let key := cache_key service_type config
  match reg_get st.instances key with
  | some inst => (st, .ok inst)
  | Option.none =>
    match create_connector st.configCache fs service_type config with
    | (cache', .ok c) =>
      let inst := (st.nextId, c)
      (⟨st.instances ++ [(key, inst)], cache', st.nextId + 1⟩, .ok inst)
    | (cache', .error e) => (⟨st.instances, cache', st.nextId⟩, .error e)

/-! ## Derived observations and concrete inputs used by the theorems -/

mutual

/-- Whether the string `needle` occurs as a value anywhere inside a
(possibly nested) value. -/
def containsStr (needle : String) : Val → Bool
  | .str s => s == needle
  | .dict d => entriesContainStr needle d
  | _ => false

/-- `containsStr` over the values of a dict body. -/
def entriesContainStr (needle : String) : List (String × Val) → Bool
  | [] => false
  | (_, v) :: rest => containsStr needle v || entriesContainStr needle rest

end

/-- Build a connector and ask it for its sanitized provider info — the
composition exercised by the redaction contract. -/
def provider_info_of (kind : ServiceKind) (config : Val) : Except PyErr Val :=
  (base_connector_init kind config).bind get_provider_info

/-- Replace the value stored under key `k` inside the provider-named
sub-mapping of a connector's configuration (no-op when the config or
the sub-mapping is not a dict). -/
def set_section_key (c : ConnectorData) (k : String) (v : Val) : ConnectorData :=
  { c with config :=
      match c.config with
      | .dict d =>
        match dget d c.provider_type with
        | some (.dict sec) => .dict (dset d c.provider_type (.dict (dset sec k v)))
        | _ => .dict d
      | other => other }

mutual

/-- Key-sort every dict level of a value: the normal form under which
two Python values compare equal with `==` (dict keys are unique, so
`==` ignores only key order). -/
def normVal : Val → Val
  | .str s => .str s
  | .int n => .int n
  | .bool b => .bool b
  | .none => .none
  | .dict d => .dict (sortPairs (normEntries d))

/-- `normVal` over the values of a dict body. -/
def normEntries : List (String × Val) → List (String × Val)
  | [] => []
  | (k, v) :: rest => (k, normVal v) :: normEntries rest

end

/-- Modelled from the spec's words, for comparison with the code's
cache key: two configurations have "equal content" when their
key-sorted normal forms coincide (Python `==` on nested dicts). -/
def contentEq (a b : Val) : Bool :=
  pyRepr (normVal a) == pyRepr (normVal b)

/-- The 25-token input used to witness the chunking theorem. -/
def c3_tokens : List String := (List.range 25).map (fun n => "t" ++ toString n)

/-- A configuration whose provider sub-mapping hides a sensitive key
one level deeper than `get_provider_info` filters. -/
def c5_cfg_nested (secret : String) : Val :=
  .dict [("provider", .str "huggingface"),
         ("huggingface", .dict [("extra", .dict [("api_key", .str secret)])])]

/-- A concrete connector used to witness the redaction theorem. -/
def c5_connector : ConnectorData :=
  ⟨.embedding,
   .dict [("provider", .str "huggingface"),
          ("huggingface", .dict [("base_url", .str "http://localhost:8080"),
                                 ("api_key", .str "old-key")])],
   "huggingface", .int 30, .int 3,
   .huggingfaceEmbedding (.str "http://localhost:8080")
     (.str "BAAI/bge-large-en-v1.5") (.int 16) (.int 60) (.str "old-key")⟩

/-- A configuration whose provider sub-mapping lists its keys in the
order `a`, `b`. -/
def c1_cfg_nested_ab : List (String × Val) :=
  [("provider", .str "huggingface"),
   ("huggingface", .dict [("a", .int 1), ("b", .int 2)])]

/-- The same content with the top level reordered and the nested keys
in the order `b`, `a` — equal as Python dicts. -/
def c1_cfg_nested_ba : List (String × Val) :=
  [("huggingface", .dict [("b", .int 2), ("a", .int 1)]),
   ("provider", .str "huggingface")]

/-- A flat configuration for the caching witness. -/
def c1_cfg_flat : List (String × Val) :=
  [("provider", .str "huggingface"), ("timeout", .int 5)]

/-- The same flat configuration with its two keys swapped. -/
def c1_cfg_flat_rev : List (String × Val) :=
  [("timeout", .int 5), ("provider", .str "huggingface")]

/-- The connector `c1_cfg_flat` constructs. -/
def c1_connector : ConnectorData :=
  ⟨.embedding, .dict c1_cfg_flat, "huggingface", .int 5, .int 3,
   .huggingfaceEmbedding (.str "http://localhost:8080")
     (.str "BAAI/bge-large-en-v1.5") (.int 16) (.int 60) .none⟩

/-- The openai embedding configuration of the end-to-end scenario with
the required `api_key` missing. -/
def c7_cfg_bad : List (String × Val) :=
  [("provider", .str "openai"), ("openai", .dict [])]

/-- The same configuration with a valid `api_key`. -/
def c7_cfg_good : List (String × Val) :=
  [("provider", .str "openai"), ("openai", .dict [("api_key", .str "sk-test")])]

/-- The connector `c7_cfg_good` constructs. -/
def c7_connector : ConnectorData :=
  ⟨.embedding, .dict c7_cfg_good, "openai", .int 30, .int 3,
   .openaiEmbedding (.str "sk-test") (.str "text-embedding-3-small")
     (.str "https://api.openai.com/v1") (.int 60) (.int 16)⟩

/-! ## Helper lemmas -/

/-- One step of the chunking loop while inside the token sequence. -/
theorem chunkLoop_step (size stride : Nat) (ts : List String) (i : Nat)
    (hs : 0 < stride) (hi : i < ts.length) :
    chunkLoop size stride ts i =
      (if ((ts.drop i).take size).isEmpty then [] else [(ts.drop i).take size]) ++
        (if i + size ≥ ts.length then [] else chunkLoop size stride ts (i + stride)) := by
  rw [chunkLoop]
  simp only [hs, hi, and_self, dite_true]
  split <;> simp

/-- The chunking loop emits nothing once the index leaves the tokens. -/
theorem chunkLoop_stop (size stride : Nat) (ts : List String) (i : Nat)
    (h : ¬ (0 < stride ∧ i < ts.length)) : chunkLoop size stride ts i = [] := by
  rw [chunkLoop]
  simp [h]

/-- `_create_connector` with an explicit nonempty configuration whose
construction fails: the exception is wrapped in `ConfigurationError`
and the config cache is untouched. -/
theorem create_connector_explicit_fail (cache : Option Val) (fs : FileState)
    (service_type : String) (config : List (String × Val)) (kind : ServiceKind)
    (e : PyErr)
    (hkind : connector_map (pyLower service_type) = some kind)
    (hne : config.isEmpty = false)
    (hfail : base_connector_init kind (.dict config) = .error e) :
    create_connector cache fs service_type (some config) =
      (cache, .error (.configurationError
        ("Failed to initialize " ++ service_type ++ " connector: " ++ e.msg))) := by
  unfold create_connector
  simp only [hkind, hne, Bool.false_eq_true, if_false, truthy, Bool.not_false,
    not_true, hfail]

/-- `_create_connector` with an explicit nonempty configuration whose
construction succeeds. -/
theorem create_connector_explicit_ok (cache : Option Val) (fs : FileState)
    (service_type : String) (config : List (String × Val)) (kind : ServiceKind)
    (c : ConnectorData)
    (hkind : connector_map (pyLower service_type) = some kind)
    (hne : config.isEmpty = false)
    (hok : base_connector_init kind (.dict config) = .ok c) :
    create_connector cache fs service_type (some config) = (cache, .ok c) := by
  unfold create_connector
  simp only [hkind, hne, Bool.false_eq_true, if_false, truthy, Bool.not_false,
    not_true, hok]

/-- `get_connector` on a cache miss defers to `_create_connector`:
success appends the fresh instance under the key, failure stores
nothing. -/
theorem get_connector_miss (st : FactoryState) (fs : FileState)
    (service_type : String) (config : Option (List (String × Val)))
    (hmiss : reg_get st.instances (cache_key service_type config) = Option.none) :
    get_connector st fs service_type config =
      (match create_connector st.configCache fs service_type config with
       | (cache', .ok c) =>
         (⟨st.instances ++ [(cache_key service_type config, (st.nextId, c))],
           cache', st.nextId + 1⟩, .ok (st.nextId, c))
       | (cache', .error e) =>
         (⟨st.instances, cache', st.nextId⟩, .error e)) := by
  unfold get_connector
  simp only [hmiss]

/-- `get_connector` on a cache miss whose construction succeeds:
the fresh instance is appended under the key and returned. -/
theorem get_connector_miss_ok (st : FactoryState) (fs : FileState)
    (service_type : String) (config : Option (List (String × Val)))
    (c : ConnectorData) (cache' : Option Val)
    (hmiss : reg_get st.instances (cache_key service_type config) = Option.none)
    (hcr : create_connector st.configCache fs service_type config =
      (cache', .ok c)) :
    get_connector st fs service_type config =
      (⟨st.instances ++ [(cache_key service_type config, (st.nextId, c))],
        cache', st.nextId + 1⟩, .ok (st.nextId, c)) := by
  rw [get_connector_miss st fs service_type config hmiss, hcr]

/-- `get_connector` on a cache miss whose construction fails: the
error propagates and the registry keeps exactly its entries. -/
theorem get_connector_miss_error (st : FactoryState) (fs : FileState)
    (service_type : String) (config : Option (List (String × Val)))
    (e : PyErr) (cache' : Option Val)
    (hmiss : reg_get st.instances (cache_key service_type config) = Option.none)
    (hcr : create_connector st.configCache fs service_type config =
      (cache', .error e)) :
    get_connector st fs service_type config =
      (⟨st.instances, cache', st.nextId⟩, .error e) := by
  rw [get_connector_miss st fs service_type config hmiss, hcr]

/-- `get_connector` on a cache hit returns the cached instance and
leaves the state untouched. -/
theorem get_connector_hit (st : FactoryState) (fs : FileState)
    (service_type : String) (config : Option (List (String × Val)))
    (inst : Nat × ConnectorData)
    (hhit : reg_get st.instances (cache_key service_type config) = some inst) :
    get_connector st fs service_type config = (st, .ok inst) := by
  unfold get_connector
  simp only [hhit]

/-! ## C2 -/

/-- C2: the spec says `_call_api` retries `Timeout`/`ConnectionRefused`
failures up to 3 attempts with bounded exponential backoff before
surfacing `Connection` — and so does the code's own docstring and its
`@retry` decorator.  But the body of `_call_api` catches
`requests.exceptions.Timeout` / `ConnectionError` and re-raises them as
the taxonomy's `ConnectionError` before tenacity's
`retry_if_exception_type` ever sees them, so the retry predicate never
matches: against an endpoint that times out on every attempt the code
makes exactly ONE attempt and surfaces `ConnectionError` at once. -/
theorem call_api_always_timeout_makes_one_attempt :
    call_api (fun _ => .timeout "Read timed out.") =
      (1, .error (.connectionError "Request timeout: Read timed out.")) := by
  unfold call_api
  rw [tenacityRetry]
  rfl

/-! ## C4 -/

/-- C4 counterexample: the claim says invalid chunk parameters
(`chunk_size <= 0`) always fail with a validation error for every
input text — but empty input short-circuits to `ok []` on line 41-42
of `internal.py` before any validation runs. -/
theorem chunk_text_invalid_params_empty_text_no_error :
    chunk_text 0 0 "" = .ok [] := rfl

/-- C4 (amended): for every input text that is nonempty after
stripping, `chunk_size <= 0`, `chunk_overlap < 0` or
`chunk_overlap >= chunk_size` always fails with a `ValueError` and
never produces chunks; empty or whitespace-only text instead returns
`[]` without validating the parameters. -/
theorem chunk_text_validation_rejects_bad_params
    (chunk_size chunk_overlap : Int) (text : String)
    (htext : ¬ (text = "" ∨ (pyStrip text).length = 0))
    (hbad : chunk_size ≤ 0 ∨ chunk_overlap < 0 ∨ chunk_overlap ≥ chunk_size) :
    chunk_text chunk_size chunk_overlap text =
        .error (.valueError "chunk_size must be positive") ∨
      chunk_text chunk_size chunk_overlap text =
        .error (.valueError "chunk_overlap must be >= 0 and < chunk_size") := by
  unfold chunk_text
  rw [if_neg htext]
  by_cases hcs : chunk_size ≤ 0
  · left
    rw [if_pos hcs]
  · right
    rw [if_neg hcs, if_pos (by omega)]

/-- C4 witness: `chunk_size = 0` on `"hello"` is rejected. -/
theorem chunk_text_validation_rejects_bad_params_witness :
    chunk_text 0 0 "hello" = .error (.valueError "chunk_size must be positive") ∨
      chunk_text 0 0 "hello" =
        .error (.valueError "chunk_overlap must be >= 0 and < chunk_size") :=
  chunk_text_validation_rejects_bad_params 0 0 "hello" (by decide) (by decide)

/-! ## C6 -/

/-- C6: `health_check` never propagates an exception: every outcome is
an `ok` boolean; a probe that raises any exception whatsoever yields
`false`; a provider without a probe yields `true`. -/
theorem health_check_total :
    (∀ probe, ∃ b, health_check probe = Except.ok b)
    ∧ (∀ e, health_check (some (Except.error e)) = Except.ok false)
    ∧ health_check Option.none = Except.ok true := by
  refine ⟨fun probe => ?_, fun e => rfl, rfl⟩
  match probe with
  | Option.none => exact ⟨true, rfl⟩
  | some (.ok b) => exact ⟨b, rfl⟩
  | some (.error _) => exact ⟨false, rfl⟩

/-! ## C8 -/

/-- C8 counterexample: a configuration file that parses fine but lacks
the `embedding_service` section makes `_load_config` return the EMPTY
mapping (line 177's `.get(service_key, {})`), not the hard-coded
embedding default the spec promises. -/
theorem load_config_missing_section_returns_empty :
    (load_config Option.none (.parsed (.dict [("storage", .dict [])])) "embedding").2 =
      .ok (.dict [])
    ∧ get_default_config "embedding" ≠ Val.dict [] :=
  ⟨rfl, fun h => absurd (congrArg pyRepr h) (by decide)⟩

/-- C8 (amended): with an empty config cache, `_load_config` returns
the hard-coded per-service default when the file is absent or
unreadable/unparsable (without raising and without populating the
cache); when the file parses to a mapping it caches it and returns its
`<serviceType>_service` section, or the EMPTY mapping when that key is
absent; when the file parses to an empty (null) document the
subsequent `.get` raises `AttributeError`. -/
theorem load_config_cases (service_type : String) :
    load_config Option.none .absent service_type =
        (Option.none, .ok (get_default_config service_type))
    ∧ load_config Option.none .unreadable service_type =
        (Option.none, .ok (get_default_config service_type))
    ∧ (∀ d, load_config Option.none (.parsed (.dict d)) service_type =
        (some (.dict d),
         .ok ((dget d (pyLower service_type ++ "_service")).getD (.dict []))))
    ∧ load_config Option.none (.parsed .none) service_type =
        (Option.none, .error (.attributeError "object has no attribute get")) :=
  ⟨rfl, rfl, fun _ => rfl, rfl⟩

/-! ## C10 -/

/-- C10: `get_connector` with an empty configuration mapping behaves
exactly like `get_connector` with no configuration: both hash the
config to 0 (the `if config else 0` truthiness test), so both compute
the same `<serviceType>_0` cache key, and `final_config = config or
load_config(...)` makes both resolve the configuration from the
layered source — the whole call is the same function of the state. -/
theorem get_connector_empty_config_is_default :
    ∀ (st : FactoryState) (fs : FileState) (service_type : String),
      config_hash (some []) = 0
      ∧ config_hash Option.none = 0
      ∧ cache_key service_type (some []) = cache_key service_type Option.none
      ∧ get_connector st fs service_type (some []) =
          get_connector st fs service_type Option.none :=
  fun _ _ _ => ⟨rfl, rfl, rfl, rfl⟩

/-! ## C3 -/

/-- C3: for `chunk_size = 10`, `chunk_overlap = 3` on any 25-token
input: the loop emits exactly the windows at indices 0, 7, 14, 21
(stride `10 - 3 = 7` starting at 0, and no window beyond the one whose
end `21 + 10` passes the token count); every chunk after the first
begins with exactly the last 3 tokens of its predecessor (each
predecessor has 10 tokens, so its last 3 are its `drop (length - 3)`);
the final chunk ends exactly at the last input token; and `chunk_text`
on any text tokenizing to those 25 tokens returns exactly these
windows rejoined with single spaces. -/
theorem chunk_windows_25_tokens (ts : List String) (h25 : ts.length = 25) :
    chunkLoop 10 7 ts 0 =
      [ts.take 10, (ts.drop 7).take 10, (ts.drop 14).take 10, ts.drop 21]
    ∧ ((ts.drop 7).take 10).take 3 = (ts.take 10).drop ((ts.take 10).length - 3)
    ∧ ((ts.drop 14).take 10).take 3 =
        ((ts.drop 7).take 10).drop (((ts.drop 7).take 10).length - 3)
    ∧ (ts.drop 21).take 3 =
        ((ts.drop 14).take 10).drop (((ts.drop 14).take 10).length - 3)
    ∧ (ts.drop 21).getLast? = ts.getLast?
    ∧ (∀ text, tokenize text = ts →
        chunk_text 10 3 text =
          .ok ((chunkLoop 10 7 ts 0).map (fun w => " ".intercalate w))) := by
  have hwindows : chunkLoop 10 7 ts 0 =
      [ts.take 10, (ts.drop 7).take 10, (ts.drop 14).take 10, ts.drop 21] := by
    rw [chunkLoop_step _ _ _ _ (by omega) (by omega),
        chunkLoop_step _ _ _ _ (by omega) (by omega),
        chunkLoop_step _ _ _ _ (by omega) (by omega),
        chunkLoop_step _ _ _ _ (by omega) (by omega)]
    have hlast : (ts.drop 21).take 10 = ts.drop 21 :=
      List.take_of_length_le (by simp [h25])
    have hnil : ts ≠ [] := by
      intro h
      rw [h] at h25
      simp at h25
    simp [List.isEmpty_iff_length_eq_zero, List.length_take, List.length_drop, h25,
      hlast, hnil]
  refine ⟨hwindows, ?_, ?_, ?_, ?_, ?_⟩
  · have hl : (ts.take 10).length = 10 := by simp [h25]
    rw [hl, List.drop_take, List.take_take]
    norm_num
  · have hl : ((ts.drop 7).take 10).length = 10 := by simp [h25]
    rw [hl, List.drop_take, List.drop_drop, List.take_take]
    norm_num
  · have hl : ((ts.drop 14).take 10).length = 10 := by simp [h25]
    rw [hl, List.drop_take, List.drop_drop]
  · rw [List.getLast?_eq_getElem?, List.getLast?_eq_getElem?, List.getElem?_drop]
    simp [h25, List.length_drop]
  · intro text htok
    have hne : ¬ (text = "" ∨ (pyStrip text).length = 0) := by
      rintro (rfl | hlen)
      · rw [show tokenize "" = [] from rfl] at htok
        rw [← htok] at h25
        simp at h25
      · have hdata : (pyStrip text).data = [] :=
          List.length_eq_zero.mp hlen
        rw [show tokenize text = tokenize.splitWsAux (pyStrip text).data [] from rfl,
          hdata] at htok
        rw [show tokenize.splitWsAux [] [] = [] from rfl] at htok
        rw [← htok] at h25
        simp at h25
    unfold chunk_text
    rw [if_neg hne, if_neg (by omega), if_neg (by omega), htok]
    rw [if_neg (by rw [h25]; omega)]
    rfl

/-- C3 witness: the 25-token hypothesis holds of `c3_tokens` and the
loop emits exactly the four overlapping windows there. -/
theorem chunk_windows_25_tokens_witness :
    c3_tokens.length = 25
    ∧ chunkLoop 10 7 c3_tokens 0 =
        [c3_tokens.take 10, (c3_tokens.drop 7).take 10,
         (c3_tokens.drop 14).take 10, c3_tokens.drop 21] :=
  ⟨by decide, (chunk_windows_25_tokens c3_tokens (by decide)).1⟩

/-! ## C5 -/

/-- Updating a key and then looking it up yields the new value. -/
theorem dget_dset_self (d : List (String × Val)) (k : String) (v : Val) :
    dget (dset d k v) k = some v := by
  induction d with
  | nil => simp [dset, dget]
  | cons p rest ih =>
    obtain ⟨k', v'⟩ := p
    by_cases h : k' = k
    · simp [dset, dget, h]
    · simp [dset, dget, h, ih]

/-- Filtering out the sensitive keys erases any update made under a
sensitive key. -/
theorem filter_dset_sensitive (sec : List (String × Val)) (k : String) (v : Val)
    (hk : k ∈ sensitive_keys) :
    (dset sec k v).filter (fun kv => !(sensitive_keys.contains kv.1)) =
      sec.filter (fun kv => !(sensitive_keys.contains kv.1)) := by
  induction sec with
  | nil => simp [dset, hk]
  | cons p rest ih =>
    obtain ⟨k', v'⟩ := p
    by_cases h : k' = k
    · subst h
      simp [dset, hk]
    · simp only [dset, if_neg h, List.filter_cons, ih]

/-- C5 counterexample: the claim promises that no sensitive key's
value anywhere in the configuration reaches the `get_provider_info`
output, and equivalently that changing only such values leaves the
output unchanged.  But `base.py` line 205-206 filters only the TOP
level of the provider sub-mapping: a secret under a nested `api_key`
key leaks into the output verbatim, and changing only that secret
changes the output. -/
theorem get_provider_info_nested_secret_leaks :
    (provider_info_of .embedding (c5_cfg_nested "SECRET1")).toOption.map
        (containsStr "SECRET1") = some true
    ∧ provider_info_of .embedding (c5_cfg_nested "SECRET1") ≠
        provider_info_of .embedding (c5_cfg_nested "SECRET2") :=
  ⟨rfl,
   fun h =>
     absurd (congrArg (fun x => x.toOption.map (containsStr "SECRET1")) h)
       (by decide)⟩

/-- C5 (amended): the redaction holds one level deep — for every
connector, changing only the value stored directly under a sensitive
key of the provider-named sub-mapping leaves the `get_provider_info`
output unchanged (values under sensitive keys nested deeper are not
redacted). -/
theorem get_provider_info_redacts_direct_sensitive_keys
    (c : ConnectorData) (k : String) (hk : k ∈ sensitive_keys)
    (v₁ v₂ : Val) :
    get_provider_info (set_section_key c k v₁) =
      get_provider_info (set_section_key c k v₂) := by
  unfold set_section_key
  cases hcfg : c.config with
  | dict d =>
    cases hsec : dget d c.provider_type with
    | none => simp [hsec]
    | some sec =>
      cases sec with
      | dict s =>
        simp only [hsec]
        unfold get_provider_info cfgGet
        simp only [dget_dset_self]
        exact congrArg
          (fun L => (Except.ok (Val.dict
            [("type", Val.str c.provider_type), ("config", Val.dict L),
             ("timeout", c.timeout), ("max_retries", c.max_retries)]) :
              Except PyErr Val))
          ((filter_dset_sensitive s k v₁ hk).trans
            (filter_dset_sensitive s k v₂ hk).symm)
      | str s2 => simp [hsec]
      | int n => simp [hsec]
      | bool b => simp [hsec]
      | none => simp [hsec]
  | str _ => rfl
  | int _ => rfl
  | bool _ => rfl
  | none => rfl

/-- C5 witness: the invariance applied to a concrete huggingface
connector and the `api_key` key. -/
theorem get_provider_info_redacts_direct_sensitive_keys_witness :
    "api_key" ∈ sensitive_keys
    ∧ get_provider_info (set_section_key c5_connector "api_key" (.str "s1")) =
        get_provider_info (set_section_key c5_connector "api_key" (.str "s2")) :=
  ⟨by decide,
   get_provider_info_redacts_direct_sensitive_keys c5_connector "api_key"
     (by decide) (.str "s1") (.str "s2")⟩

/-! ## C7 -/

/-- C7: whenever connector construction for an explicit configuration
fails inside `get_connector`, a `ConfigurationError` surfaces and the
state — registry and config cache — is exactly the state before the
call: nothing is stored under the failing cache key and no partially
built connector is returned; a later call with a valid configuration
succeeds and is cached under its own key. -/
theorem get_connector_failure_never_cached (st : FactoryState) (fs : FileState)
    (service_type : String) (bad good : List (String × Val))
    (kind : ServiceKind) (e : PyErr) (c : ConnectorData)
    (hkind : connector_map (pyLower service_type) = some kind)
    (hbadne : bad.isEmpty = false)
    (hfail : base_connector_init kind (.dict bad) = .error e)
    (hbadmiss : reg_get st.instances (cache_key service_type (some bad)) =
      Option.none)
    (hgoodne : good.isEmpty = false)
    (hok : base_connector_init kind (.dict good) = .ok c)
    (hgoodmiss : reg_get st.instances (cache_key service_type (some good)) =
      Option.none) :
    get_connector st fs service_type (some bad) =
      (st, .error (.configurationError
        ("Failed to initialize " ++ service_type ++ " connector: " ++ e.msg)))
    ∧ get_connector st fs service_type (some good) =
      (⟨st.instances ++ [(cache_key service_type (some good), (st.nextId, c))],
        st.configCache, st.nextId + 1⟩,
       .ok (st.nextId, c)) := by
  constructor
  · rw [get_connector_miss st fs service_type (some bad) hbadmiss,
      create_connector_explicit_fail st.configCache fs service_type bad kind e
        hkind hbadne hfail]
  · rw [get_connector_miss st fs service_type (some good) hgoodmiss,
      create_connector_explicit_ok st.configCache fs service_type good kind c
        hkind hgoodne hok]

/-- C7 witness: the end-to-end openai scenario — missing `api_key`
fails with `ConfigurationError` and caches nothing; the retry with a
valid key succeeds and is cached under its own key. -/
theorem get_connector_failure_never_cached_witness :
    get_connector emptyState .absent "embedding" (some c7_cfg_bad) =
      (emptyState, .error (.configurationError
        ("Failed to initialize " ++ "embedding" ++ " connector: " ++
          PyErr.msg (.valueError "api_key is required for OpenAI embedding"))))
    ∧ get_connector emptyState .absent "embedding" (some c7_cfg_good) =
      (⟨emptyState.instances ++
          [(cache_key "embedding" (some c7_cfg_good), (emptyState.nextId, c7_connector))],
        emptyState.configCache, emptyState.nextId + 1⟩,
       .ok (emptyState.nextId, c7_connector)) :=
  get_connector_failure_never_cached emptyState .absent "embedding"
    c7_cfg_bad c7_cfg_good .embedding
    (.valueError "api_key is required for OpenAI embedding") c7_connector
    rfl rfl rfl rfl rfl rfl rfl

/-! ## C9 -/

/-- C9 counterexample: requesting an embedding connector whose
configuration names an unregistered provider surfaces to the caller of
`get_connector` as `ConfigurationError` — NOT as
`ProviderNotFoundError` as the claim states — because
`_create_connector` wraps every construction exception, including the
`ProviderNotFoundError` raised by `_init_provider`, in
`ConfigurationError`. -/
theorem get_connector_unknown_provider_surfaces_configuration :
    (get_connector emptyState .absent "embedding"
        (some [("provider", Val.str "doesnotexist")])).2 =
      .error (.configurationError
        ("Failed to initialize embedding connector: Unknown embedding provider: doesnotexist. Available: openai, huggingface, ollama, azure, cohere")) :=
  rfl

/-- C9 (amended): an unknown provider name is classified as
`ProviderNotFoundError` where the failure is first understood — inside
`_init_provider` — but the factory's construction wrapper re-raises it
as `ConfigurationError`, so the caller of `get_connector` observes
`Configuration`, not `ProviderNotFound` (which only surfaces unwrapped
for an unknown service type). -/
theorem unknown_provider_pnf_then_wrapped (pt : String) (config : Val)
    (hpt : pt ∉ (["openai", "huggingface", "ollama", "azure", "cohere"] : List String))
    (st : FactoryState) (fs : FileState) (service_type : String)
    (cfg : List (String × Val)) (m : String)
    (hkind : connector_map (pyLower service_type) = some .embedding)
    (hne : cfg.isEmpty = false)
    (hfail : base_connector_init .embedding (.dict cfg) =
      .error (.providerNotFoundError m))
    (hmiss : reg_get st.instances (cache_key service_type (some cfg)) =
      Option.none) :
    init_provider .embedding pt config =
      .error (.providerNotFoundError
        ("Unknown embedding provider: " ++ pt ++
          ". Available: openai, huggingface, ollama, azure, cohere"))
    ∧ (get_connector st fs service_type (some cfg)).2 =
      .error (.configurationError
        ("Failed to initialize " ++ service_type ++ " connector: " ++ m)) := by
  simp only [List.mem_cons, List.mem_singleton, not_or] at hpt
  obtain ⟨h1, h2, h3, h4, h5, -⟩ := hpt
  constructor
  · simp only [init_provider]
    rw [if_neg h1, if_neg h2, if_neg h3, if_neg h4, if_neg h5]
  · rw [get_connector_miss st fs service_type (some cfg) hmiss,
      create_connector_explicit_fail st.configCache fs service_type cfg .embedding
        (.providerNotFoundError m) hkind hne hfail]
    rfl

/-- C9 witness: the amended classification applied to the provider
name `doesnotexist`. -/
theorem unknown_provider_pnf_then_wrapped_witness :
    init_provider .embedding "doesnotexist" (.dict []) =
      .error (.providerNotFoundError
        ("Unknown embedding provider: " ++ "doesnotexist" ++
          ". Available: openai, huggingface, ollama, azure, cohere"))
    ∧ (get_connector emptyState .absent "embedding"
        (some [("provider", Val.str "doesnotexist")])).2 =
      .error (.configurationError
        ("Failed to initialize " ++ "embedding" ++ " connector: " ++
          "Unknown embedding provider: doesnotexist. Available: openai, huggingface, ollama, azure, cohere")) :=
  unknown_provider_pnf_then_wrapped "doesnotexist" (.dict [])
    (by decide) emptyState .absent "embedding"
    [("provider", Val.str "doesnotexist")]
    "Unknown embedding provider: doesnotexist. Available: openai, huggingface, ollama, azure, cohere"
    rfl rfl rfl rfl

/-! ## C1 -/

/-- The byte-wise comparison is total. -/
theorem strLeAux_total : ∀ (as bs : List Char),
    strLeB.strLeAux as bs = true ∨ strLeB.strLeAux bs as = true := by
  intro as
  induction as with
  | nil => intro bs; left; cases bs <;> rfl
  | cons c cs ih =>
    intro bs
    cases bs with
    | nil => right; rfl
    | cons d ds =>
      by_cases h1 : c.toNat < d.toNat
      · left; simp [strLeB.strLeAux, h1]
      · by_cases h2 : d.toNat < c.toNat
        · right; simp [strLeB.strLeAux, h2]
        · rcases ih ds with h | h
          · left; simp [strLeB.strLeAux, h1, h2, h]
          · right; simp [strLeB.strLeAux, h1, h2, h]

/-- The byte-wise comparison is antisymmetric. -/
theorem strLeAux_antisymm : ∀ (as bs : List Char),
    strLeB.strLeAux as bs = true → strLeB.strLeAux bs as = true → as = bs := by
  intro as
  induction as with
  | nil =>
    intro bs _ hba
    cases bs with
    | nil => rfl
    | cons d ds => simp [strLeB.strLeAux] at hba
  | cons c cs ih =>
    intro bs hab hba
    cases bs with
    | nil => simp [strLeB.strLeAux] at hab
    | cons d ds =>
      simp only [strLeB.strLeAux] at hab hba
      by_cases h1 : c.toNat < d.toNat
      · rw [if_neg (by omega : ¬ d.toNat < c.toNat), if_pos h1] at hba
        exact absurd hba (by simp)
      · by_cases h2 : d.toNat < c.toNat
        · rw [if_neg h1, if_pos h2] at hab
          exact absurd hab (by simp)
        · rw [if_neg h1, if_neg h2] at hab
          rw [if_neg h2, if_neg h1] at hba
          have hnat : c.toNat = d.toNat := by omega
          have hcd : c = d := Char.ext (UInt32.toNat.inj hnat)
          rw [hcd, ih ds hab hba]

/-- The byte-wise comparison is transitive. -/
theorem strLeAux_trans : ∀ (as bs cs : List Char),
    strLeB.strLeAux as bs = true → strLeB.strLeAux bs cs = true →
    strLeB.strLeAux as cs = true := by
  intro as
  induction as with
  | nil => intro bs cs _ _; cases cs <;> rfl
  | cons a as ih =>
    intro bs cs hab hbc
    cases bs with
    | nil => simp [strLeB.strLeAux] at hab
    | cons b bs =>
      cases cs with
      | nil => simp [strLeB.strLeAux] at hbc
      | cons c cs =>
        simp only [strLeB.strLeAux] at hab hbc ⊢
        by_cases h1 : a.toNat < b.toNat
        · by_cases h2 : b.toNat < c.toNat
          · rw [if_pos (by omega : a.toNat < c.toNat)]
          · by_cases h3 : c.toNat < b.toNat
            · rw [if_neg h2, if_pos h3] at hbc
              exact absurd hbc (by simp)
            · rw [if_pos (by omega : a.toNat < c.toNat)]
        · by_cases h2 : b.toNat < a.toNat
          · rw [if_neg h1, if_pos h2] at hab
            exact absurd hab (by simp)
          · by_cases h3 : b.toNat < c.toNat
            · rw [if_pos (by omega : a.toNat < c.toNat)]
            · by_cases h4 : c.toNat < b.toNat
              · rw [if_neg h3, if_pos h4] at hbc
                exact absurd hbc (by simp)
              · rw [if_neg h1, if_neg h2] at hab
                rw [if_neg h3, if_neg h4] at hbc
                rw [if_neg (by omega : ¬ a.toNat < c.toNat),
                  if_neg (by omega : ¬ c.toNat < a.toNat)]
                exact ih bs cs hab hbc

/-- Totality at the string level. -/
theorem strLeB_total (a b : String) : strLeB a b = true ∨ strLeB b a = true :=
  strLeAux_total a.data b.data

/-- Antisymmetry at the string level. -/
theorem strLeB_antisymm {a b : String} (h1 : strLeB a b = true)
    (h2 : strLeB b a = true) : a = b := by
  cases a with
  | mk as =>
    cases b with
    | mk bs =>
      exact congrArg String.mk (strLeAux_antisymm as bs h1 h2)

/-- Transitivity at the string level. -/
theorem strLeB_trans {a b c : String} (h1 : strLeB a b = true)
    (h2 : strLeB b c = true) : strLeB a c = true :=
  strLeAux_trans a.data b.data c.data h1 h2

/-- Inserting two pairs with distinct keys commutes. -/
theorem insertPair_comm (x y : String × Val) (h : x.1 ≠ y.1) :
    ∀ l, insertPair x (insertPair y l) = insertPair y (insertPair x l) := by
  have hone : ∀ (hxy : strLeB x.1 y.1 = true), ¬ strLeB y.1 x.1 = true :=
    fun hxy hyx => h (strLeB_antisymm hxy hyx)
  intro l
  induction l with
  | nil =>
    simp only [insertPair]
    rcases strLeB_total x.1 y.1 with hxy | hyx
    · rw [if_pos hxy, if_neg (hone hxy)]
    · rw [if_pos hyx, if_neg (fun hxy => hone hxy hyx)]
  | cons q qs ih =>
    by_cases cyq : strLeB y.1 q.1 = true
    · by_cases cxq : strLeB x.1 q.1 = true
      · rcases strLeB_total x.1 y.1 with hxy | hyx
        · have hyx := hone hxy
          simp only [insertPair, if_pos cyq, if_pos cxq, if_pos hxy,
            if_neg hyx]
        · have hxy : ¬ strLeB x.1 y.1 = true := fun hxy => hone hxy hyx
          simp only [insertPair, if_pos cyq, if_pos cxq, if_pos hyx,
            if_neg hxy]
      · have hxy : ¬ strLeB x.1 y.1 = true :=
          fun hxy => cxq (strLeB_trans hxy cyq)
        simp only [insertPair, if_pos cyq, if_neg cxq, if_neg hxy]
    · by_cases cxq : strLeB x.1 q.1 = true
      · have hyx : ¬ strLeB y.1 x.1 = true :=
          fun hyx => cyq (strLeB_trans hyx cxq)
        simp only [insertPair, if_pos cxq, if_neg cyq, if_neg hyx]
      · simp only [insertPair, if_neg cyq, if_neg cxq, ih]

/-- `sorted` unfolds one insertion at a time. -/
theorem sortPairs_cons (p : String × Val) (l : List (String × Val)) :
    sortPairs (p :: l) = insertPair p (sortPairs l) := rfl

/-- Permuting the items of a mapping with distinct keys does not
change the sorted item list Python hashes. -/
theorem sortPairs_eq_of_perm : ∀ {l₁ l₂ : List (String × Val)},
    l₁.Perm l₂ → (l₁.map Prod.fst).Nodup → sortPairs l₁ = sortPairs l₂ := by
  intro l₁ l₂ h
  induction h with
  | nil => intro _; rfl
  | cons x hp ih =>
    intro hn
    simp only [List.map_cons, List.nodup_cons] at hn
    rw [sortPairs_cons, sortPairs_cons, ih hn.2]
  | swap x y l =>
    intro hn
    simp only [List.map_cons, List.nodup_cons, List.mem_cons, not_or] at hn
    rw [sortPairs_cons, sortPairs_cons, sortPairs_cons, sortPairs_cons]
    exact insertPair_comm y x hn.1.1 (sortPairs l)
  | trans h₁ h₂ ih₁ ih₂ =>
    intro hn
    rw [ih₁ hn, ih₂ ((h₁.map Prod.fst).nodup_iff.mp hn)]

/-- The factory's config hash is invariant under top-level reordering
of a distinct-keyed configuration. -/
theorem config_hash_eq_of_perm (cfgA cfgB : List (String × Val))
    (h : cfgA.Perm cfgB) (hn : (cfgA.map Prod.fst).Nodup) :
    config_hash (some cfgA) = config_hash (some cfgB) := by
  cases cfgA with
  | nil =>
    have : cfgB = [] := h.symm.eq_nil
    subst this
    rfl
  | cons p rest =>
    cases hB : cfgB with
    | nil =>
      subst hB
      exact absurd h.length_eq (by simp)
    | cons q rest2 =>
      subst hB
      unfold config_hash
      simp only [List.isEmpty_cons]
      rw [sortPairs_eq_of_perm h hn]

/-- The cache key is invariant under top-level reordering of a
distinct-keyed configuration. -/
theorem cache_key_eq_of_perm (service_type : String)
    (cfgA cfgB : List (String × Val))
    (h : cfgA.Perm cfgB) (hn : (cfgA.map Prod.fst).Nodup) :
    cache_key service_type (some cfgA) = cache_key service_type (some cfgB) :=
  congrArg (fun n => service_type ++ "_" ++ toString n)
    (config_hash_eq_of_perm cfgA cfgB h hn)

/-- Registry lookup finds a freshly appended binding when the key was
absent before. -/
theorem reg_get_append_right {α : Type} (l : List (String × α)) (k : String)
    (v : α) (h : reg_get l k = Option.none) :
    reg_get (l ++ [(k, v)]) k = some v := by
  induction l with
  | nil => simp [reg_get]
  | cons p rest ih =>
    obtain ⟨k', v'⟩ := p
    by_cases hk : k' = k
    · simp [reg_get, hk] at h
    · simp only [reg_get, if_neg hk, List.cons_append] at h ⊢
      exact ih h

/-- C1 counterexample: the two configurations are equal Python
mappings (same content, only key order differs — here in the NESTED
provider sub-mapping), yet `str(sorted(config.items()))` preserves the
nested insertion order, so the two sequential `get_connector` calls
compute different cache keys and construct two distinct instances
(object 0 and object 1) instead of returning the identical one. -/
theorem get_connector_nested_reorder_not_cached :
    contentEq (.dict c1_cfg_nested_ab) (.dict c1_cfg_nested_ba) = true
    ∧ cache_key "embedding" (some c1_cfg_nested_ab) ≠
        cache_key "embedding" (some c1_cfg_nested_ba)
    ∧ (get_connector emptyState .absent "embedding"
        (some c1_cfg_nested_ab)).2.toOption.map Prod.fst = some 0
    ∧ (get_connector
        (get_connector emptyState .absent "embedding" (some c1_cfg_nested_ab)).1
        .absent "embedding" (some c1_cfg_nested_ba)).2.toOption.map Prod.fst =
          some 1 :=
  ⟨rfl, by decide, rfl, rfl⟩

/-- C1 (amended): for configuration mappings with distinct keys whose
contents agree up to TOP-LEVEL key order (entries pairwise equal,
including the order inside nested mappings), two sequential
`get_connector` calls compute the same CacheKey, and when the first
returns an instance the second returns the identical instance and
leaves the factory state untouched — no reconstruction.  (Nested
mappings with reordered keys defeat the cache, per the
counterexample.) -/
theorem get_connector_idempotent_up_to_toplevel_order
    (st : FactoryState) (fs : FileState) (service_type : String)
    (cfgA cfgB : List (String × Val))
    (hperm : cfgA.Perm cfgB) (hnodup : (cfgA.map Prod.fst).Nodup)
    (inst : Nat × ConnectorData)
    (h1 : (get_connector st fs service_type (some cfgA)).2 = .ok inst) :
    cache_key service_type (some cfgB) = cache_key service_type (some cfgA)
    ∧ get_connector (get_connector st fs service_type (some cfgA)).1 fs
        service_type (some cfgB) =
      ((get_connector st fs service_type (some cfgA)).1, .ok inst) := by
  have hkey : cache_key service_type (some cfgB) =
      cache_key service_type (some cfgA) :=
    (cache_key_eq_of_perm service_type cfgA cfgB hperm hnodup).symm
  refine ⟨hkey, ?_⟩
  cases hhit : reg_get st.instances (cache_key service_type (some cfgA)) with
  | some inst0 =>
    rw [get_connector_hit st fs service_type (some cfgA) inst0 hhit] at h1 ⊢
    have : inst0 = inst := by
      simpa using h1
    subst this
    exact get_connector_hit st fs service_type (some cfgB) inst0
      (by rw [hkey]; exact hhit)
  | none =>
    cases hcr : create_connector st.configCache fs service_type (some cfgA) with
    | mk cache' r =>
      cases r with
      | error e =>
        rw [get_connector_miss_error st fs service_type (some cfgA) e cache'
          hhit hcr] at h1
        simp at h1
      | ok c =>
        rw [get_connector_miss_ok st fs service_type (some cfgA) c cache'
          hhit hcr] at h1 ⊢
        have hinst : inst = (st.nextId, c) := by
          simpa using h1.symm
        subst hinst
        exact get_connector_hit _ fs service_type (some cfgB) (st.nextId, c)
          (by
            rw [hkey]
            exact reg_get_append_right st.instances
              (cache_key service_type (some cfgA)) (st.nextId, c) hhit)

/-- C1 witness: the idempotence applied to a concrete flat
configuration and its top-level reordering. -/
theorem get_connector_idempotent_up_to_toplevel_order_witness :
    cache_key "embedding" (some c1_cfg_flat_rev) =
      cache_key "embedding" (some c1_cfg_flat)
    ∧ get_connector
        (get_connector emptyState .absent "embedding" (some c1_cfg_flat)).1
        .absent "embedding" (some c1_cfg_flat_rev) =
      ((get_connector emptyState .absent "embedding" (some c1_cfg_flat)).1,
       .ok (0, c1_connector)) :=
  get_connector_idempotent_up_to_toplevel_order emptyState .absent "embedding"
    c1_cfg_flat c1_cfg_flat_rev (List.Perm.swap _ _ _) (by decide)
    (0, c1_connector) rfl

end Dalli
